import Mathlib

/-!
Verification of the page-tracker Flask application
(`src/page-tracker/src/page_tracker/app.py`).

The application exposes a single route `GET /` whose handler `index`
increments the key `"page_views"` in a Redis store and renders the new
count, catching `RedisError` into a logged 500 response.  The store
handle is produced by `redis()`, a `functools.cache`-memoized accessor
that constructs the client from the `REDIS_URL` environment variable
(default `redis://localhost:6379/0`).

The embedding models the external Redis store as a key-value map
together with an availability mode (healthy, raising `RedisError`, or
raising some other exception), and models the handler as a function
from store state to a request trace recording the HTTP response (or
its absence, when an exception propagates), the resulting store state,
the number of increment calls made, and the number of log events.
-/

namespace PageTracker

/-- Availability mode of the external Redis store, as seen by one
`incr` call: the call succeeds, raises a `RedisError`, or raises some
exception that is not a `RedisError`. -/
inductive StoreMode where
  | healthy
  | redisFailing
  | otherFailing
  deriving DecidableEq

/-- The external Redis store: integer values for each key (Redis
treats an unset key as 0 for `INCR`, modelled by a total map defaulted
to 0), together with its current availability mode. -/
structure Store where
  values : String → Int
  mode : StoreMode

/-- Result of one call to the store client's `incr` method: the new
integer value on success, or one of the two exception kinds. -/
inductive IncrResult where
  | ok (n : Int)
  | redisError
  | otherExn
  deriving DecidableEq

/-- Semantics of `redis().incr(key)`: on a healthy store, atomically
add one to the value at `key` (0 when unset) and return the new value;
on a failing store, raise without mutating the store. -/
def Store.incr (s : Store) (key : String) : Store × IncrResult :=
  match s.mode with
  | .healthy =>
      let n := s.values key + 1
      ({ s with values := fun k => if k = key then n else s.values k }, .ok n)
  | .redisFailing => (s, .redisError)
  | .otherFailing => (s, .otherExn)

/-- An HTTP response: body text and status code.  Flask turns a bare
string return into a 200 response, and a `(body, code)` pair into a
response with that code. -/
structure Response where
  body : String
  status : Nat
  deriving DecidableEq

/-- What one execution of the `index` handler produced: the response
(`none` when an uncaught exception propagated out of the handler), the
store state afterwards, how many `incr` calls were made, and how many
log events (`app.logger.exception`) were emitted. -/
structure RequestTrace where
  response : Option Response
  store : Store
  incrCalls : Nat
  logCount : Nat

/-- Success body rendered by `index`:
`f"This page has been seen {page_views} times."`. -/
def successBody (n : Int) : String :=
  s!"This page has been seen {n} times."

/-- Fixed apology body returned on `RedisError`:
`"Sorry, something went wrong \N{pensive face}"`. -/
def apologyBody : String :=
  "Sorry, something went wrong 😔"

/-- The `index` handler for `GET /`: call `redis().incr("page_views")`
once; on success return the formatted count with status 200; on
`RedisError` log once and return the apology with status 500; any
other exception is not caught and propagates (no response, no log).
The route takes no parameters, so the handler is a function of the
store state alone. -/
def index (s : Store) : RequestTrace :=
  let r := s.incr "page_views"
  match r.2 with
  | .ok n =>
      { response := some { body := successBody n, status := 200 }
        store := r.1, incrCalls := 1, logCount := 0 }
  | .redisError =>
      { response := some { body := apologyBody, status := 500 }
        store := r.1, incrCalls := 1, logCount := 1 }
  | .otherExn =>
      { response := none, store := r.1, incrCalls := 1, logCount := 0 }

/-- The constructed Redis client handle, identified by the connection
URL it was built from (`Redis.from_url(url)`). -/
structure Redis where
  url : String
  deriving DecidableEq

/-- `os.getenv(key, default)`: the variable's value when set, else the
default. -/
def getenv (env : String → Option String) (key dflt : String) : String :=
  (env key).getD dflt

/-- The hardcoded fallback connection target used when `REDIS_URL` is
unset. -/
def defaultRedisUrl : String := "redis://localhost:6379/0"

/-- The connection URL the accessor passes to `Redis.from_url`. -/
def redisUrlOf (env : String → Option String) : String :=
  getenv env "REDIS_URL" defaultRedisUrl

/-- Process-wide memoization state of the `@cache`-decorated `redis()`
accessor: the cached handle, absent until the first call. -/
structure ProcState where
  cachedHandle : Option Redis
  deriving DecidableEq

/-- Fresh process state: no handle constructed yet. -/
def freshProc : ProcState := { cachedHandle := none }

/-- The `redis()` accessor: on a cache hit return the cached handle
unchanged; on the first call construct `Redis.from_url(...)` from the
environment and cache it.  The returned `Bool` records whether this
call constructed a new handle. -/
def redis (env : String → Option String) (ps : ProcState) :
    ProcState × Redis × Bool :=
  match ps.cachedHandle with
  | some h => (ps, h, false)
  | none =>
      let h : Redis := { url := redisUrlOf env }
      ({ cachedHandle := some h }, h, true)

/-- Run the accessor `n` times in sequence, collecting the handles
returned and the number of construction events. -/
def accessTimes (env : String → Option String) :
    Nat → ProcState → ProcState × List Redis × Nat
  | 0, ps => (ps, [], 0)
  | n + 1, ps =>
      let r1 := redis env ps
      let rest := accessTimes env n r1.1
      (rest.1, r1.2.1 :: rest.2.1, (if r1.2.2 then 1 else 0) + rest.2.2)

/-- One full request: obtain the handle through the memoized accessor,
then run the handler against the store.  Returns the accessor's
post-state, the handle used and whether it was freshly constructed,
and the handler's trace. -/
def handleRequest (env : String → Option String) (ps : ProcState)
    (s : Store) : ProcState × Redis × Bool × RequestTrace :=
  let a := redis env ps
  (a.1, a.2.1, a.2.2, index s)

/-- Configuration passed to `app.run` in the `__main__` block. -/
structure RunConfig where
  host : String
  port : Nat
  debug : Bool
  deriving DecidableEq

/-- The `__main__` entry point:
`app.run(host="0.0.0.0", port=5000, debug=True)`. -/
def mainRunConfig : RunConfig :=
  { host := "0.0.0.0", port := 5000, debug := true }

/-- The four-request outage scenario from the spec: two requests
against a healthy store, one during an outage, one after recovery. -/
def outageScenario (s : Store) :
    RequestTrace × RequestTrace × RequestTrace × RequestTrace :=
  let t1 := index s
  let t2 := index t1.store
  let t3 := index { t2.store with mode := .redisFailing }
  let t4 := index { t3.store with mode := .healthy }
  (t1, t2, t3, t4)

/-- Auxiliary: once a handle is cached, further accessor calls return
it unchanged and construct nothing. -/
theorem accessTimes_cached (env : String → Option String) (h : Redis) :
    ∀ n, accessTimes env n { cachedHandle := some h } =
      ({ cachedHandle := some h }, List.replicate n h, 0)
  | 0 => rfl
  | n + 1 => by
      simp [accessTimes, redis, accessTimes_cached env h n, List.replicate]

/-- C1: whenever the store's increment on the fixed key `"page_views"`
succeeds and returns the integer `n`, the handler returns HTTP 200
with body exactly `"This page has been seen {n} times."`. -/
theorem index_success_response (s : Store) (n : Int)
    (h : (s.incr "page_views").2 = IncrResult.ok n) :
    (index s).response = some { body := successBody n, status := 200 } := by
  cases hm : s.mode with
  | healthy =>
      simp [Store.incr, hm] at h
      simp [index, Store.incr, hm, h]
  | redisFailing => simp [Store.incr, hm] at h
  | otherFailing => simp [Store.incr, hm] at h

/-- Witness for C1 at a store whose counter is unset (0): the increment
returns 1 and the handler responds 200 with the formatted body. -/
theorem index_success_response_witness :
    (({ values := fun _ => 0, mode := .healthy } : Store).incr
        "page_views").2 = IncrResult.ok 1 ∧
    (index { values := fun _ => 0, mode := .healthy }).response =
      some { body := successBody 1, status := 200 } :=
  ⟨rfl, index_success_response _ 1 rfl⟩

/-- C2: whenever the store's increment raises `RedisError`, the handler
catches it, logs exactly once, and returns HTTP 500 with the fixed
apology body, making no further increment attempt (exactly one
increment call per failing request). -/
theorem index_redis_error_response (s : Store)
    (h : (s.incr "page_views").2 = IncrResult.redisError) :
    (index s).response = some { body := apologyBody, status := 500 } ∧
    (index s).logCount = 1 ∧ (index s).incrCalls = 1 := by
  cases hm : s.mode with
  | healthy => simp [Store.incr, hm] at h
  | redisFailing => simp [index, Store.incr, hm]
  | otherFailing => simp [Store.incr, hm] at h

/-- Witness for C2 at a store in the `RedisError`-raising mode. -/
theorem index_redis_error_response_witness :
    (({ values := fun _ => 0, mode := .redisFailing } : Store).incr
        "page_views").2 = IncrResult.redisError ∧
    ((index { values := fun _ => 0, mode := .redisFailing }).response =
        some { body := apologyBody, status := 500 } ∧
      (index { values := fun _ => 0, mode := .redisFailing }).logCount = 1 ∧
      (index { values := fun _ => 0, mode := .redisFailing }).incrCalls = 1) :=
  ⟨rfl, index_redis_error_response _ rfl⟩

/-- C3: against a healthy store whose counter holds `v`, one request
returns 200 with body showing `v+1` and the next returns 200 with body
showing `v+2`; each request makes exactly one increment call, and the
counter never decreases across the two successful requests. -/
theorem index_two_requests_monotonic (s : Store) (v : Int)
    (hm : s.mode = StoreMode.healthy) (hv : s.values "page_views" = v) :
    (index s).response = some { body := successBody (v + 1), status := 200 } ∧
    (index s).incrCalls = 1 ∧
    (index (index s).store).response =
      some { body := successBody (v + 2), status := 200 } ∧
    (index (index s).store).incrCalls = 1 ∧
    s.values "page_views" ≤ (index s).store.values "page_views" ∧
    (index s).store.values "page_views" ≤
      (index (index s).store).store.values "page_views" := by
  have h2 : v + 1 + 1 = v + 2 := by ring
  simp [index, Store.incr, hm, hv, h2]

/-- Witness for C3 at a healthy store whose counter holds 5. -/
theorem index_two_requests_monotonic_witness :
    ({ values := fun _ => 5, mode := .healthy } : Store).mode =
        StoreMode.healthy ∧
    ({ values := fun _ => 5, mode := .healthy } : Store).values
        "page_views" = 5 ∧
    (index { values := fun _ => 5, mode := .healthy }).response =
      some { body := successBody 6, status := 200 } ∧
    (index (index { values := fun _ => 5, mode := .healthy }).store).response
      = some { body := successBody 7, status := 200 } :=
  ⟨rfl, rfl,
    (index_two_requests_monotonic _ 5 rfl rfl).1,
    (index_two_requests_monotonic _ 5 rfl rfl).2.2.1⟩

/-- C4: the `@cache`-memoized accessor constructs the client handle
exactly once over any positive number of calls in a fresh process,
on the first call, and every call returns that same handle. -/
theorem redis_memoized (env : String → Option String) (n : Nat) :
    (accessTimes env (n + 1) freshProc).2.2 = 1 ∧
    (accessTimes env (n + 1) freshProc).2.1 =
      List.replicate (n + 1) { url := redisUrlOf env } := by
  simp [accessTimes, redis, freshProc, accessTimes_cached, List.replicate]

/-- C5: when `REDIS_URL` is unset the handle is constructed from the
fallback `redis://localhost:6379/0`; when it is set, its value is used
instead. -/
theorem redis_url_from_env (env : String → Option String) :
    (env "REDIS_URL" = none →
      redisUrlOf env = "redis://localhost:6379/0") ∧
    (∀ u, env "REDIS_URL" = some u → redisUrlOf env = u) := by
  constructor
  · intro h
    simp [redisUrlOf, getenv, defaultRedisUrl, h]
  · intro u h
    simp [redisUrlOf, getenv, h]

/-- Witness for C5 at an empty environment and at an environment
binding `REDIS_URL` to a non-default URL. -/
theorem redis_url_from_env_witness :
    redisUrlOf (fun _ => none) = "redis://localhost:6379/0" ∧
    redisUrlOf (fun k =>
        if k = "REDIS_URL" then some "redis://cache:6379/1" else none) =
      "redis://cache:6379/1" :=
  ⟨(redis_url_from_env (fun _ => none)).1 rfl,
    (redis_url_from_env _).2 "redis://cache:6379/1" (by simp)⟩

/-- C6: a request failing with a store error performs no mutation on
the counter (first conjunct: the error branch leaves the store
unchanged); in the concrete scenario two successful requests reach 2,
a request during an outage returns 500 leaving the counter at 2, and
the first request after recovery returns 200 with
`"This page has been seen 3 times."`. -/
theorem failed_request_preserves_counter :
    (∀ s : Store, s.mode = StoreMode.redisFailing → (index s).store = s) ∧
    (∀ s : Store, s.mode = StoreMode.healthy → s.values "page_views" = 0 →
      (outageScenario s).1.response =
        some { body := successBody 1, status := 200 } ∧
      (outageScenario s).2.1.response =
        some { body := successBody 2, status := 200 } ∧
      (outageScenario s).2.2.1.response =
        some { body := apologyBody, status := 500 } ∧
      (outageScenario s).2.2.1.store.values "page_views" = 2 ∧
      (outageScenario s).2.2.2.response =
        some { body := successBody 3, status := 200 }) := by
  constructor
  · intro s h
    simp [index, Store.incr, h]
  · intro s hm hv
    simp [outageScenario, index, Store.incr, hm, hv]

/-- Witness for C6 at a zero-initialized healthy store and a failing
store. -/
theorem failed_request_preserves_counter_witness :
    (index { values := fun _ => 7, mode := .redisFailing }).store =
      ({ values := fun _ => 7, mode := .redisFailing } : Store) ∧
    (outageScenario { values := fun _ => 0, mode := .healthy }).2.2.2.response
      = some { body := successBody 3, status := 200 } :=
  ⟨failed_request_preserves_counter.1 _ rfl,
    (failed_request_preserves_counter.2 _ rfl rfl).2.2.2.2⟩

/-- C7: whenever the handler produces a response, its status code is
200 or 500 and nothing else. -/
theorem index_status_only_200_or_500 (s : Store) (r : Response)
    (h : (index s).response = some r) :
    r.status = 200 ∨ r.status = 500 := by
  cases hm : s.mode with
  | healthy =>
      simp [index, Store.incr, hm] at h
      subst h
      left
      rfl
  | redisFailing =>
      simp [index, Store.incr, hm] at h
      subst h
      right
      rfl
  | otherFailing =>
      simp [index, Store.incr, hm] at h

/-- Witness for C7 at a healthy zero-initialized store. -/
theorem index_status_only_200_or_500_witness :
    (index { values := fun _ => 0, mode := .healthy }).response =
      some { body := successBody 1, status := 200 } ∧
    (200 = 200 ∨ (200 : Nat) = 500) :=
  ⟨rfl, index_status_only_200_or_500 { values := fun _ => 0, mode := .healthy }
    { body := successBody 1, status := 200 } rfl⟩

/-- C8: a `RedisError` during increment is caught once at the handler
boundary — the failing request still yields a response (500, one log
event) rather than crashing — and it does not invalidate the cached
handle: the next request reuses the same handle without
reconstruction, makes one fresh increment attempt, and its whole
outcome is exactly `index` of the store state at that call. -/
theorem caught_error_keeps_cached_handle (env : String → Option String)
    (h : Redis) (s1 s2 : Store) (h1 : s1.mode = StoreMode.redisFailing) :
    (handleRequest env { cachedHandle := some h } s1).2.1 = h ∧
    (handleRequest env { cachedHandle := some h } s1).2.2.1 = false ∧
    (handleRequest env { cachedHandle := some h } s1).2.2.2.response =
      some { body := apologyBody, status := 500 } ∧
    (handleRequest env { cachedHandle := some h } s1).2.2.2.logCount = 1 ∧
    (handleRequest env { cachedHandle := some h } s1).1 =
      { cachedHandle := some h } ∧
    (handleRequest env
      (handleRequest env { cachedHandle := some h } s1).1 s2).2.1 = h ∧
    (handleRequest env
      (handleRequest env { cachedHandle := some h } s1).1 s2).2.2.1 = false ∧
    (handleRequest env
      (handleRequest env { cachedHandle := some h } s1).1 s2).2.2.2.incrCalls
      = 1 ∧
    (handleRequest env
      (handleRequest env { cachedHandle := some h } s1).1 s2).2.2.2 =
      index s2 := by
  refine ⟨rfl, rfl, ?_, ?_, rfl, rfl, rfl, ?_, rfl⟩
  · simp [handleRequest, index, Store.incr, h1]
  · simp [handleRequest, index, Store.incr, h1]
  · cases hm : s2.mode <;> simp [handleRequest, index, Store.incr, hm]

/-- Witness for C8 with the default-URL handle cached, a failing store
for the first request and a healthy store for the second. -/
theorem caught_error_keeps_cached_handle_witness :
    (handleRequest (fun _ => none) { cachedHandle := some { url := defaultRedisUrl } }
        { values := fun _ => 2, mode := .redisFailing }).2.2.2.response =
      some { body := apologyBody, status := 500 } ∧
    (handleRequest (fun _ => none)
      (handleRequest (fun _ => none)
        { cachedHandle := some { url := defaultRedisUrl } }
        { values := fun _ => 2, mode := .redisFailing }).1
      { values := fun _ => 2, mode := .healthy }).2.2.2 =
      index { values := fun _ => 2, mode := .healthy } :=
  ⟨(caught_error_keeps_cached_handle (fun _ => none) { url := defaultRedisUrl }
      { values := fun _ => 2, mode := .redisFailing }
      { values := fun _ => 2, mode := .healthy } rfl).2.2.1,
    (caught_error_keeps_cached_handle (fun _ => none) { url := defaultRedisUrl }
      { values := fun _ => 2, mode := .redisFailing }
      { values := fun _ => 2, mode := .healthy } rfl).2.2.2.2.2.2.2.2⟩

/-- C9: the handler's `except` clause catches only `RedisError`: when
the increment raises any other exception, no response is produced by
the handler (in particular not the apology 500) and nothing is logged
there — the exception propagates out of the handler uncaught. -/
theorem non_redis_error_propagates (s : Store)
    (h : (s.incr "page_views").2 = IncrResult.otherExn) :
    (index s).response = none ∧ (index s).logCount = 0 := by
  cases hm : s.mode with
  | healthy => simp [Store.incr, hm] at h
  | redisFailing => simp [Store.incr, hm] at h
  | otherFailing => simp [index, Store.incr, hm]

/-- Witness for C9 at a store raising a non-Redis exception. -/
theorem non_redis_error_propagates_witness :
    (({ values := fun _ => 0, mode := .otherFailing } : Store).incr
        "page_views").2 = IncrResult.otherExn ∧
    ((index { values := fun _ => 0, mode := .otherFailing }).response = none ∧
      (index { values := fun _ => 0, mode := .otherFailing }).logCount = 0) :=
  ⟨rfl, non_redis_error_propagates _ rfl⟩

/-- C10: when the module is run directly as the entry point, the app
binds to all interfaces (host `0.0.0.0`) on port 5000 with debug
enabled. -/
theorem main_binds_all_interfaces :
    mainRunConfig.host = "0.0.0.0" ∧ mainRunConfig.port = 5000 ∧
      mainRunConfig.debug = true :=
  ⟨rfl, rfl, rfl⟩

end PageTracker
